import Mathlib

/-!
# Verification of the style-swap-gui core

A shallow embedding of the core of the `style-swap-gui` repository:

* `src/utils/filesystem.py` — image-directory listing (`IMAGE_PATTERNS`,
  `list_images`);
* `src/fingerprint.py` — `FingerprintExtractor.compute` and the
  `StyleFingerprint` data model (per-image statistics abstracted, numpy's
  elementwise square root taken as a parameter);
* `src/interaction.py` — `interpret_feedback`, `_apply_llm_result`,
  `_clamp_parameters`, `_clamp_control` (the LLM response modelled as an
  explicit oracle value);
* `src/session.py` — `StyleTransferSession`: the fingerprint cache,
  fallback-fingerprint cache, per-image parameter map, `stylise_image`,
  `stylise_all`, `set_parameter`, `apply_feedback`, `refresh_fingerprint`.

Python floats are modelled by `ℚ` (the claims under study only involve exact
arithmetic: clamping, averaging, integer modulus), Python exceptions by
explicit `Except` results paired with the post-call state, and the
dynamically typed values accepted by `set_parameter` by the inductive
`PyValue` (note that Python's `bool` is a subclass of `int`).
-/

namespace StyleSwap

/-- File identity: in the session every image is keyed by its path; the
claims only need the file name, so a path is a string. -/
abbrev Path := String

/-- The Python exceptions that the session code distinguishes:
`except ValueError` catches exactly the `valueError` constructor, every
other exception (decode errors, provider failures, ...) is `otherError`. -/
inductive PyError where
  | valueError (msg : String)
  | otherError (msg : String)
deriving Repr, DecidableEq

/-- A dynamically typed Python value as received by
`StyleTransferSession.set_parameter`.  `bool` is listed separately even
though Python's `bool` is a subclass of `int`; the embedding of
`isinstance(value, (int, float))` treats it as numeric accordingly. -/
inductive PyValue where
  | int (n : ℤ)
  | float (q : ℚ)
  | bool (b : Bool)
  | str (s : String)
deriving Repr, DecidableEq

/-! ## src/utils/filesystem.py -/

/-- The literal pattern tuple of `src/utils/filesystem.py:9`.  Only the
all-lowercase and all-uppercase spellings of each extension appear. -/
def IMAGE_PATTERNS : List String :=
  ["*.jpg", "*.jpeg", "*.png", "*.bmp", "*.JPG", "*.JPEG", "*.PNG", "*.BMP"]

/-- POSIX `Path.glob` of a `*.<suffix>` pattern is case-sensitive and `*`
matches any (possibly empty) run of characters, so a name matches exactly
when it ends in the literal suffix of the pattern. -/
def globMatch (pattern name : String) : Bool :=
  List.isSuffixOf (pattern.drop 1).data name.data

/-- Insertion step of the sort performed by Python's `sorted`. -/
def insertStr (x : String) : List String → List String
  | [] => [x]
  | y :: ys => if x ≤ y then x :: y :: ys else y :: insertStr x ys

/-- Python's `sorted`, specialised to strings. -/
def sortStrings : List String → List String
  | [] => []
  | x :: xs => insertStr x (sortStrings xs)

/-- `list_images` (`src/utils/filesystem.py:12-15`): for every pattern in
turn collect the directory entries matching it, then sort the concatenation.
A directory is modelled by the list of the file names it contains. -/
def list_images (directory : List String) : List String :=
  sortStrings
    ((IMAGE_PATTERNS.map (fun pattern => directory.filter (fun name => globMatch pattern name))).flatten)

/-- The extension of a file name: what follows the last dot (used only to
state the case-insensitivity claim, not by the code itself). -/
def fileExt (name : String) : String :=
  (name.splitOn ".").getLastD ""

theorem mem_insertStr (x a : String) (l : List String) :
    a ∈ insertStr x l ↔ a = x ∨ a ∈ l := by
  induction l with
  | nil => simp [insertStr]
  | cons y ys ih =>
    by_cases h : x ≤ y
    · simp [insertStr, h]
    · simp only [insertStr, if_neg h, List.mem_cons, ih]
      tauto

theorem sorted_insertStr (x : String) (l : List String)
    (h : List.Sorted (· ≤ ·) l) : List.Sorted (· ≤ ·) (insertStr x l) := by
  induction l with
  | nil => simp [insertStr]
  | cons y ys ih =>
    rw [List.sorted_cons] at h
    by_cases hxy : x ≤ y
    · rw [insertStr, if_pos hxy, List.sorted_cons]
      refine ⟨?_, ?_⟩
      · intro b hb
        rcases List.mem_cons.mp hb with hb | hb
        · exact hb ▸ hxy
        · exact le_trans hxy (h.1 b hb)
      · rw [List.sorted_cons]
        exact h
    · rw [insertStr, if_neg hxy, List.sorted_cons]
      refine ⟨?_, ih h.2⟩
      intro b hb
      rcases (mem_insertStr x b ys).mp hb with hb | hb
      · exact hb ▸ le_of_not_le hxy
      · exact h.1 b hb

theorem sortStrings_sorted (l : List String) :
    List.Sorted (· ≤ ·) (sortStrings l) := by
  induction l with
  | nil => simp [sortStrings]
  | cons x xs ih => exact sorted_insertStr x (sortStrings xs) ih

theorem mem_sortStrings (a : String) (l : List String) :
    a ∈ sortStrings l ↔ a ∈ l := by
  induction l with
  | nil => simp [sortStrings]
  | cons x xs ih =>
    rw [sortStrings, mem_insertStr, ih, List.mem_cons]

theorem mem_list_images (name : String) (directory : List String) :
    name ∈ list_images directory ↔
      name ∈ directory ∧ ∃ pattern ∈ IMAGE_PATTERNS, globMatch pattern name = true := by
  rw [list_images, mem_sortStrings, List.mem_flatten]
  constructor
  · rintro ⟨l, hl, hname⟩
    rcases List.mem_map.mp hl with ⟨pattern, hp, rfl⟩
    rcases List.mem_filter.mp hname with ⟨hmem, hmatch⟩
    exact ⟨hmem, pattern, hp, hmatch⟩
  · rintro ⟨hmem, pattern, hp, hmatch⟩
    exact ⟨directory.filter (fun n => globMatch pattern n),
      List.mem_map.mpr ⟨pattern, hp, rfl⟩, List.mem_filter.mpr ⟨hmem, hmatch⟩⟩

/-! ## src/fingerprint.py -/

/-- `StyleFingerprint` (`src/fingerprint.py:23-30`): aggregated statistics
describing a visual style.  numpy float arrays become lists of rationals. -/
structure StyleFingerprint where
  clip_mean : List ℚ
  clip_std : List ℚ
  color_mean : List ℚ
  color_std : List ℚ
deriving Repr, DecidableEq

/-- The per-image data gathered inside `FingerprintExtractor.compute`: the
unit-normalised CLIP embedding returned by `_embed` and the per-channel
mean and standard deviation returned by `_color_stats`.  Both helpers call
external libraries (the CLIP model and PIL), so their outputs are the
primitive inputs of the aggregation being verified. -/
structure ImageStats where
  embedding : List ℚ
  colorMean : List ℚ
  colorStd : List ℚ
deriving Repr, DecidableEq

/-- Componentwise sum of two equal-length vectors (numpy broadcasting +). -/
def vecAdd (a b : List ℚ) : List ℚ := List.zipWith (· + ·) a b

/-- Componentwise sum of the rows of a stacked array. -/
def stackSum : List (List ℚ) → List ℚ
  | [] => []
  | [v] => v
  | v :: w :: rest => vecAdd v (stackSum (w :: rest))

/-- numpy `stack(rows).mean(axis=0)`: componentwise arithmetic mean. -/
def npMeanAxis0 (rows : List (List ℚ)) : List ℚ :=
  (stackSum rows).map (fun x => x / (rows.length : ℚ))

/-- numpy `stack(rows).var(axis=0)`: componentwise mean squared deviation
from the componentwise mean. -/
def npVarAxis0 (rows : List (List ℚ)) : List ℚ :=
  npMeanAxis0 (rows.map (fun v => List.zipWith (fun x m => (x - m) ^ 2) v (npMeanAxis0 rows)))

/-- numpy `stack(rows).std(axis=0)`: the elementwise square root of the
variance.  The square root itself has no exact rational value, so it is
passed in as the parameter `sqrt`; every claim under study is about which
data is aggregated, not about the numerics of the root. -/
def npStdAxis0 (sqrt : ℚ → ℚ) (rows : List (List ℚ)) : List ℚ :=
  (npVarAxis0 rows).map sqrt

/-- `FingerprintExtractor.compute` (`src/fingerprint.py:144-168`): collect
the per-image embeddings and colour statistics, fail on an empty input,
otherwise aggregate — mean of embeddings, std across images of the
embeddings, mean of per-image channel means, and mean (not std) of
per-image channel standard deviations. -/
def compute (sqrt : ℚ → ℚ) (images : List ImageStats) : Except String StyleFingerprint :=
  let embeddings := images.map (fun i => i.embedding)
  let color_means := images.map (fun i => i.colorMean)
  let color_stds := images.map (fun i => i.colorStd)
  if embeddings.isEmpty then
    Except.error "No reference images provided for fingerprint computation."
  else
    Except.ok
      { clip_mean := npMeanAxis0 embeddings
        clip_std := npStdAxis0 sqrt embeddings
        color_mean := npMeanAxis0 color_means
        color_std := npMeanAxis0 color_stds }

/-- The spec's words, §3: "arithmetic mean" of the j-th components of the
rows, written independently of the numpy embedding above. -/
def componentMean (rows : List (List ℚ)) (j : ℕ) : ℚ :=
  (rows.map (fun v => v.getD j 0)).sum / (rows.length : ℚ)

/-- The spec's words, §3: the cross-row variance of the j-th components
(the square of the "standard deviation across images"). -/
def componentVariance (rows : List (List ℚ)) (j : ℕ) : ℚ :=
  (rows.map (fun v => (v.getD j 0 - componentMean rows j) ^ 2)).sum / (rows.length : ℚ)

theorem getD_zipWith (f : ℚ → ℚ → ℚ) :
    ∀ (a b : List ℚ) (j : ℕ), j < a.length → j < b.length →
      (List.zipWith f a b).getD j 0 = f (a.getD j 0) (b.getD j 0) := by
  intro a
  induction a with
  | nil => intro b j h _; simp at h
  | cons x xs ih =>
    intro b j hja hjb
    cases b with
    | nil => simp at hjb
    | cons y ys =>
      cases j with
      | zero => rfl
      | succ j =>
        simp only [List.zipWith_cons_cons, List.getD_cons_succ]
        exact ih ys j (Nat.lt_of_succ_lt_succ hja) (Nat.lt_of_succ_lt_succ hjb)

theorem getD_map (f : ℚ → ℚ) :
    ∀ (l : List ℚ) (j : ℕ), j < l.length → (l.map f).getD j 0 = f (l.getD j 0) := by
  intro l
  induction l with
  | nil => intro j h; simp at h
  | cons x xs ih =>
    intro j hj
    cases j with
    | zero => rfl
    | succ j =>
      simp only [List.map_cons, List.getD_cons_succ]
      exact ih j (Nat.lt_of_succ_lt_succ hj)

theorem stackSum_length (d : ℕ) :
    ∀ rows : List (List ℚ), rows ≠ [] → (∀ v ∈ rows, v.length = d) →
      (stackSum rows).length = d := by
  intro rows
  induction rows with
  | nil => intro h _; exact absurd rfl h
  | cons v rest ih =>
    intro _ hlen
    cases rest with
    | nil => exact hlen v (by simp)
    | cons w ws =>
      have hr : (stackSum (w :: ws)).length = d :=
        ih (by simp) (fun u hu => hlen u (List.mem_cons_of_mem v hu))
      have hv : v.length = d := hlen v (by simp)
      simp [stackSum, vecAdd, List.length_zipWith, hv, hr]

theorem stackSum_getD (d j : ℕ) (hj : j < d) :
    ∀ rows : List (List ℚ), rows ≠ [] → (∀ v ∈ rows, v.length = d) →
      (stackSum rows).getD j 0 = (rows.map (fun v => v.getD j 0)).sum := by
  intro rows
  induction rows with
  | nil => intro h _; exact absurd rfl h
  | cons v rest ih =>
    intro _ hlen
    cases rest with
    | nil => simp [stackSum]
    | cons w ws =>
      have hr := ih (by simp) (fun u hu => hlen u (List.mem_cons_of_mem v hu))
      have hv : v.length = d := hlen v (by simp)
      have hlenr : (stackSum (w :: ws)).length = d :=
        stackSum_length d (w :: ws) (by simp) (fun u hu => hlen u (List.mem_cons_of_mem v hu))
      calc (stackSum (v :: w :: ws)).getD j 0
          = v.getD j 0 + (stackSum (w :: ws)).getD j 0 := by
            rw [stackSum, vecAdd]
            exact getD_zipWith (· + ·) v (stackSum (w :: ws)) j (hv ▸ hj) (hlenr ▸ hj)
        _ = ((v :: w :: ws).map (fun v => v.getD j 0)).sum := by
            rw [hr]; simp

theorem npMeanAxis0_length (d : ℕ) (rows : List (List ℚ))
    (hne : rows ≠ []) (hlen : ∀ v ∈ rows, v.length = d) :
    (npMeanAxis0 rows).length = d := by
  rw [npMeanAxis0, List.length_map]
  exact stackSum_length d rows hne hlen

theorem npMeanAxis0_getD (d j : ℕ) (rows : List (List ℚ))
    (hne : rows ≠ []) (hlen : ∀ v ∈ rows, v.length = d) (hj : j < d) :
    (npMeanAxis0 rows).getD j 0 = componentMean rows j := by
  rw [npMeanAxis0, componentMean,
    getD_map _ (stackSum rows) j ((stackSum_length d rows hne hlen) ▸ hj),
    stackSum_getD d j hj rows hne hlen]

theorem npVarAxis0_rows_len (d : ℕ) (rows : List (List ℚ))
    (hne : rows ≠ []) (hlen : ∀ v ∈ rows, v.length = d) :
    ∀ u ∈ rows.map (fun v => List.zipWith (fun x m => (x - m) ^ 2) v (npMeanAxis0 rows)),
      u.length = d := by
  intro u hu
  rcases List.mem_map.mp hu with ⟨v, hv, rfl⟩
  rw [List.length_zipWith, hlen v hv, npMeanAxis0_length d rows hne hlen, min_self]

theorem npVarAxis0_getD (d j : ℕ) (rows : List (List ℚ))
    (hne : rows ≠ []) (hlen : ∀ v ∈ rows, v.length = d) (hj : j < d) :
    (npVarAxis0 rows).getD j 0 = componentVariance rows j := by
  have hmapne : rows.map (fun v => List.zipWith (fun x m => (x - m) ^ 2) v (npMeanAxis0 rows)) ≠ [] := by
    simpa using hne
  rw [npVarAxis0, npMeanAxis0_getD d j _ hmapne (npVarAxis0_rows_len d rows hne hlen) hj,
    componentMean, componentVariance, List.map_map, List.length_map]
  congr 1
  congr 1
  apply List.map_congr_left
  intro v hv
  simp only [Function.comp_apply]
  rw [getD_zipWith _ v (npMeanAxis0 rows) j ((hlen v hv) ▸ hj)
      ((npMeanAxis0_length d rows hne hlen) ▸ hj),
    npMeanAxis0_getD d j rows hne hlen hj]

theorem npVarAxis0_length (d : ℕ) (rows : List (List ℚ))
    (hne : rows ≠ []) (hlen : ∀ v ∈ rows, v.length = d) :
    (npVarAxis0 rows).length = d := by
  have hmapne : rows.map (fun v => List.zipWith (fun x m => (x - m) ^ 2) v (npMeanAxis0 rows)) ≠ [] := by
    simpa using hne
  rw [npVarAxis0]
  exact npMeanAxis0_length d _ hmapne (npVarAxis0_rows_len d rows hne hlen)

/-! ## Parameters and src/interaction.py -/

/-- Modelled from the spec: the `FilmulatorParameters` dataclass lives in
`src/filmulator_engine.py`, which is imported by `session.py`,
`interaction.py` and `transformer.py` but is not part of the available
sources.  Per spec §3 and §6 it has nine numeric sliders constrained to
[-100,100], three booleans, and an integer rotation, all defaulting to the
neutral 0 / false / 0°. -/
structure FilmulatorParameters where
  strength : ℚ := 0
  saturation_scale : ℚ := 0
  brightness_shift : ℚ := 0
  shadow_lift : ℚ := 0
  highlight_compress : ℚ := 0
  contrast : ℚ := 0
  clarity : ℚ := 0
  color_temperature : ℚ := 0
  grain_strength : ℚ := 0
  grayscale : Bool := false
  flip_horizontal : Bool := false
  flip_vertical : Bool := false
  rotation_degrees : ℤ := 0
deriving Repr, DecidableEq

def CONTROL_MIN : ℚ := -100

def CONTROL_MAX : ℚ := 100

/-- `_clamp_control` (`src/interaction.py:111-113`). -/
def clamp_control (value : ℚ) : ℚ :=
  max CONTROL_MIN (min CONTROL_MAX value)

/-- `_clamp_parameters` (`src/interaction.py:98-108`): force the nine
numeric controls back into the safe band; rotation, the booleans and the
flips are not touched. -/
def clamp_parameters (p : FilmulatorParameters) : FilmulatorParameters :=
  { p with
    strength := clamp_control p.strength
    saturation_scale := clamp_control p.saturation_scale
    brightness_shift := clamp_control p.brightness_shift
    shadow_lift := clamp_control p.shadow_lift
    highlight_compress := clamp_control p.highlight_compress
    contrast := clamp_control p.contrast
    clarity := clamp_control p.clarity
    color_temperature := clamp_control p.color_temperature
    grain_strength := clamp_control p.grain_strength }

/-- The flat dictionary distilled from the LLM's JSON response by
`src/llm_adapter.py` (`_extract_actions`): every key optional.  The LLM
itself is an external collaborator, so the dictionary is the oracle input
of `interpret_feedback`. -/
structure LlmResult where
  strength_delta : Option ℚ := none
  saturation_delta : Option ℚ := none
  brightness_delta : Option ℚ := none
  shadow_delta : Option ℚ := none
  highlight_delta : Option ℚ := none
  contrast_delta : Option ℚ := none
  clarity_delta : Option ℚ := none
  temperature_delta : Option ℚ := none
  grain_strength : Option ℚ := none
  grayscale : Option Bool := none
  rotation : Option ℤ := none
  flip_horizontal : Option Bool := none
  flip_vertical : Option Bool := none
  reset : Option Bool := none
  messages : List String := []
deriving Repr, DecidableEq

/-- One `if key in llm_result:` block of `_apply_llm_result`: when the key
is present apply its handler and set the `changed` flag, otherwise leave
the accumulated (parameters, changed) state alone. -/
def stepOpt {α : Type} (key : Option α)
    (f : FilmulatorParameters → α → FilmulatorParameters)
    (st : FilmulatorParameters × Bool) : FilmulatorParameters × Bool :=
  match key with
  | none => st
  | some v => (f st.1 v, true)

/-- The `reset` block of `_apply_llm_result` (`src/interaction.py:90-93`):
only a present and truthy value replaces the parameters with fresh
defaults. -/
def resetStep (r : LlmResult) (st : FilmulatorParameters × Bool) :
    FilmulatorParameters × Bool :=
  match r.reset with
  | some true => ({}, true)
  | _ => st

/-- `_apply_llm_result` (`src/interaction.py:46-95`), blocks in source
order: the eight deltas (each nudging and clamping its slider), absolute
grain, grayscale, rotation accumulated modulo 360, the two flips, and
finally reset. -/
def apply_llm_result (params : FilmulatorParameters) (r : LlmResult) :
    FilmulatorParameters × Bool :=
  resetStep r
    (stepOpt r.flip_vertical (fun p b => { p with flip_vertical := b })
      (stepOpt r.flip_horizontal (fun p b => { p with flip_horizontal := b })
        (stepOpt r.rotation (fun p d => { p with rotation_degrees := (p.rotation_degrees + d) % 360 })
          (stepOpt r.grayscale (fun p b => { p with grayscale := b })
            (stepOpt r.grain_strength (fun p v => { p with grain_strength := clamp_control v })
              (stepOpt r.temperature_delta (fun p v => { p with color_temperature := clamp_control (p.color_temperature + v) })
                (stepOpt r.clarity_delta (fun p v => { p with clarity := clamp_control (p.clarity + v) })
                  (stepOpt r.contrast_delta (fun p v => { p with contrast := clamp_control (p.contrast + v) })
                    (stepOpt r.highlight_delta (fun p v => { p with highlight_compress := clamp_control (p.highlight_compress + v) })
                      (stepOpt r.shadow_delta (fun p v => { p with shadow_lift := clamp_control (p.shadow_lift + v) })
                        (stepOpt r.brightness_delta (fun p v => { p with brightness_shift := clamp_control (p.brightness_shift + v) })
                          (stepOpt r.saturation_delta (fun p v => { p with saturation_scale := clamp_control (p.saturation_scale + v) })
                            (stepOpt r.strength_delta (fun p v => { p with strength := clamp_control (p.strength + v) })
                              (params, false))))))))))))))

/-- Python's `str.strip`: drop leading and trailing whitespace. -/
def pyStrip (s : String) : String :=
  String.mk (((s.data.dropWhile Char.isWhitespace).reverse.dropWhile Char.isWhitespace).reverse)

/-- `interpret_feedback` (`src/interaction.py:15-43`): blank feedback and a
missing LLM response change nothing; an applied result is re-clamped as a
defensive second pass before being returned with `changed = true`. -/
def interpret_feedback (feedback : String) (params : FilmulatorParameters)
    (llm : Option LlmResult) : FilmulatorParameters × Bool × List String :=
  if pyStrip feedback = "" then (params, false, [])
  else
    match llm with
    | none => (params, false, [])
    | some r =>
      match apply_llm_result params r with
      | (updated, true) => (clamp_parameters updated, true, r.messages)
      | (_, false) => (params, false, r.messages)

theorem clamp_control_mem (q : ℚ) :
    -100 ≤ clamp_control q ∧ clamp_control q ≤ 100 := by
  unfold clamp_control CONTROL_MIN CONTROL_MAX
  exact ⟨le_max_left _ _, max_le (by norm_num) (min_le_left _ _)⟩

/-- The invariant the spec demands of every stored parameter record: all
nine numeric sliders lie in [-100, 100]. -/
def paramsInRange (p : FilmulatorParameters) : Prop :=
  (-100 ≤ p.strength ∧ p.strength ≤ 100) ∧
  (-100 ≤ p.saturation_scale ∧ p.saturation_scale ≤ 100) ∧
  (-100 ≤ p.brightness_shift ∧ p.brightness_shift ≤ 100) ∧
  (-100 ≤ p.shadow_lift ∧ p.shadow_lift ≤ 100) ∧
  (-100 ≤ p.highlight_compress ∧ p.highlight_compress ≤ 100) ∧
  (-100 ≤ p.contrast ∧ p.contrast ≤ 100) ∧
  (-100 ≤ p.clarity ∧ p.clarity ≤ 100) ∧
  (-100 ≤ p.color_temperature ∧ p.color_temperature ≤ 100) ∧
  (-100 ≤ p.grain_strength ∧ p.grain_strength ≤ 100)

instance (p : FilmulatorParameters) : Decidable (paramsInRange p) := by
  unfold paramsInRange; infer_instance

theorem clamp_parameters_inRange (p : FilmulatorParameters) :
    paramsInRange (clamp_parameters p) := by
  unfold paramsInRange clamp_parameters
  refine ⟨?_, ?_, ?_, ?_, ?_, ?_, ?_, ?_, ?_⟩ <;> exact clamp_control_mem _

theorem clamp_parameters_rotation (p : FilmulatorParameters) :
    (clamp_parameters p).rotation_degrees = p.rotation_degrees := rfl

theorem interpret_feedback_unchanged (feedback : String)
    (params : FilmulatorParameters) (llm : Option LlmResult)
    (h : (interpret_feedback feedback params llm).2.1 = false) :
    (interpret_feedback feedback params llm).1 = params := by
  by_cases hb : pyStrip feedback = ""
  · simp [interpret_feedback, hb]
  · cases llm with
    | none => simp [interpret_feedback, hb]
    | some r =>
      rcases ha : apply_llm_result params r with ⟨u, c⟩
      cases c with
      | false => simp [interpret_feedback, hb, ha]
      | true => simp [interpret_feedback, hb, ha] at h

theorem interpret_feedback_changed (feedback : String)
    (params : FilmulatorParameters) (llm : Option LlmResult)
    (h : (interpret_feedback feedback params llm).2.1 = true) :
    ∃ u, (interpret_feedback feedback params llm).1 = clamp_parameters u := by
  by_cases hb : pyStrip feedback = ""
  · simp [interpret_feedback, hb] at h
  · cases llm with
    | none => simp [interpret_feedback, hb] at h
    | some r =>
      rcases ha : apply_llm_result params r with ⟨u, c⟩
      cases c with
      | false => simp [interpret_feedback, hb, ha] at h
      | true => exact ⟨u, by simp [interpret_feedback, hb, ha]⟩

theorem rot_step_fv (key : Option Bool) (st : FilmulatorParameters × Bool) :
    (stepOpt key (fun p b => { p with flip_vertical := b }) st).1.rotation_degrees
      = st.1.rotation_degrees := by cases key <;> rfl

theorem rot_step_fh (key : Option Bool) (st : FilmulatorParameters × Bool) :
    (stepOpt key (fun p b => { p with flip_horizontal := b }) st).1.rotation_degrees
      = st.1.rotation_degrees := by cases key <;> rfl

theorem rot_step_gs (key : Option Bool) (st : FilmulatorParameters × Bool) :
    (stepOpt key (fun p b => { p with grayscale := b }) st).1.rotation_degrees
      = st.1.rotation_degrees := by cases key <;> rfl

theorem rot_step_grain (key : Option ℚ) (st : FilmulatorParameters × Bool) :
    (stepOpt key (fun p v => { p with grain_strength := clamp_control v }) st).1.rotation_degrees
      = st.1.rotation_degrees := by cases key <;> rfl

theorem rot_step_temp (key : Option ℚ) (st : FilmulatorParameters × Bool) :
    (stepOpt key (fun p v => { p with color_temperature := clamp_control (p.color_temperature + v) }) st).1.rotation_degrees
      = st.1.rotation_degrees := by cases key <;> rfl

theorem rot_step_clar (key : Option ℚ) (st : FilmulatorParameters × Bool) :
    (stepOpt key (fun p v => { p with clarity := clamp_control (p.clarity + v) }) st).1.rotation_degrees
      = st.1.rotation_degrees := by cases key <;> rfl

theorem rot_step_con (key : Option ℚ) (st : FilmulatorParameters × Bool) :
    (stepOpt key (fun p v => { p with contrast := clamp_control (p.contrast + v) }) st).1.rotation_degrees
      = st.1.rotation_degrees := by cases key <;> rfl

theorem rot_step_high (key : Option ℚ) (st : FilmulatorParameters × Bool) :
    (stepOpt key (fun p v => { p with highlight_compress := clamp_control (p.highlight_compress + v) }) st).1.rotation_degrees
      = st.1.rotation_degrees := by cases key <;> rfl

theorem rot_step_shad (key : Option ℚ) (st : FilmulatorParameters × Bool) :
    (stepOpt key (fun p v => { p with shadow_lift := clamp_control (p.shadow_lift + v) }) st).1.rotation_degrees
      = st.1.rotation_degrees := by cases key <;> rfl

theorem rot_step_bright (key : Option ℚ) (st : FilmulatorParameters × Bool) :
    (stepOpt key (fun p v => { p with brightness_shift := clamp_control (p.brightness_shift + v) }) st).1.rotation_degrees
      = st.1.rotation_degrees := by cases key <;> rfl

theorem rot_step_sat (key : Option ℚ) (st : FilmulatorParameters × Bool) :
    (stepOpt key (fun p v => { p with saturation_scale := clamp_control (p.saturation_scale + v) }) st).1.rotation_degrees
      = st.1.rotation_degrees := by cases key <;> rfl

theorem rot_step_str (key : Option ℚ) (st : FilmulatorParameters × Bool) :
    (stepOpt key (fun p v => { p with strength := clamp_control (p.strength + v) }) st).1.rotation_degrees
      = st.1.rotation_degrees := by cases key <;> rfl

theorem stepOpt_snd_true {α : Type} (key : Option α)
    (f : FilmulatorParameters → α → FilmulatorParameters)
    (st : FilmulatorParameters × Bool) (h : st.2 = true) :
    (stepOpt key f st).2 = true := by
  cases key with
  | none => exact h
  | some v => rfl

theorem resetStep_none (r : LlmResult) (hreset : r.reset = none)
    (st : FilmulatorParameters × Bool) : resetStep r st = st := by
  unfold resetStep
  rw [hreset]

theorem apply_llm_result_rotation (params : FilmulatorParameters)
    (r : LlmResult) (d : ℤ) (hr : r.rotation = some d) (hreset : r.reset = none) :
    (apply_llm_result params r).1.rotation_degrees
        = (params.rotation_degrees + d) % 360 ∧
      (apply_llm_result params r).2 = true := by
  unfold apply_llm_result
  have hstep : ∀ st : FilmulatorParameters × Bool,
      (stepOpt r.rotation (fun p d => { p with rotation_degrees := (p.rotation_degrees + d) % 360 }) st).1.rotation_degrees
        = (st.1.rotation_degrees + d) % 360 := by
    intro st; rw [hr]; rfl
  have hsnd : ∀ st : FilmulatorParameters × Bool,
      (stepOpt r.rotation (fun p d => { p with rotation_degrees := (p.rotation_degrees + d) % 360 }) st).2 = true := by
    intro st; rw [hr]; rfl
  rw [resetStep_none r hreset]
  constructor
  · rw [rot_step_fv, rot_step_fh, hstep]
    rw [rot_step_gs, rot_step_grain, rot_step_temp, rot_step_clar, rot_step_con,
      rot_step_high, rot_step_shad, rot_step_bright, rot_step_sat, rot_step_str]
  · exact stepOpt_snd_true _ _ _ (stepOpt_snd_true _ _ _ (hsnd _))

/-! ## src/session.py -/

/-- The mutable state owned by a `StyleTransferSession`: the cached primary
fingerprint (`_fingerprint`), the per-image parameter map (`_image_params`,
viewed through the get-or-insert accessor `_params_for`, hence total with
default records), and the per-image fallback fingerprints
(`_fallback_fingerprints`). -/
structure SessionState where
  fingerprint : Option StyleFingerprint
  imageParams : Path → FilmulatorParameters
  fallbacks : Path → Option StyleFingerprint

/-- The session state together with the on-disk render outputs: one file
per input name in the output directory, fully overwritten per render. -/
structure World where
  session : SessionState
  outputs : List Path

/-- The session's external collaborators and directories: the listings of
the reference and input directories, the extractor
(`FingerprintExtractor.compute` applied to a list of paths — its result may
be a failure), and the engine render `apply_style_to_path`. -/
structure Env where
  referenceDir : List String
  inputDir : List String
  computeFp : List Path → Except PyError StyleFingerprint
  render : Path → StyleFingerprint → FilmulatorParameters → Except PyError Unit

/-- A `StylisedImage` record (`src/session.py:17-20`). -/
structure StylisedImage where
  input_path : Path
  output_path : Path
deriving Repr, DecidableEq

namespace StyleTransferSession

/-- The value stored by `set_parameter` (`src/session.py:129-133`): Python's
`isinstance(value, (int, float))` also accepts `bool` (a subclass of `int`),
so every int, float and bool is passed through
`max(-100.0, min(100.0, float(value)))`; any other value is stored as
given. -/
def set_parameter_value (value : PyValue) : PyValue :=
  match value with
  | PyValue.int n => PyValue.float (max (-100) (min 100 (n : ℚ)))
  | PyValue.float q => PyValue.float (max (-100) (min 100 q))
  | PyValue.bool b => PyValue.float (max (-100) (min 100 (if b then (1 : ℚ) else 0)))
  | v => v

/-- `set_parameter` acting on the dynamic attribute dictionary of one
image's parameter record (`setattr(params, name, value)` after the clamp
above).  The record is dynamically typed in Python, hence the
string-indexed `PyValue` view here. -/
def set_parameter (attrs : String → PyValue) (name : String) (value : PyValue) :
    String → PyValue :=
  fun k => if k = name then set_parameter_value value else attrs k

/-- `StyleTransferSession.fingerprint` (`src/session.py:56-64`): return the
cached primary fingerprint if present; otherwise fail when the reference
directory lists no images, and otherwise compute, cache, and clear every
fallback entry.  A raised exception is the `Except.error` component, and
the second component is the state after the call. -/
def fingerprint (env : Env) (s : SessionState) :
    Except PyError StyleFingerprint × SessionState :=
  match s.fingerprint with
  | some fp => (Except.ok fp, s)
  | none =>
    if list_images env.referenceDir = [] then
      (Except.error (PyError.valueError "No reference images found"), s)
    else
      match env.computeFp (list_images env.referenceDir) with
      | Except.error e => (Except.error e, s)
      | Except.ok fp =>
        (Except.ok fp, { s with fingerprint := some fp, fallbacks := fun _ => none })

/-- `refresh_fingerprint` (`src/session.py:97-102`). -/
def refresh_fingerprint (env : Env) (s : SessionState) :
    Except PyError Unit × SessionState :=
  if list_images env.referenceDir = [] then
    (Except.error (PyError.valueError "No reference images found"), s)
  else
    match env.computeFp (list_images env.referenceDir) with
    | Except.error e => (Except.error e, s)
    | Except.ok fp =>
      (Except.ok Unit.unit, { s with fingerprint := some fp, fallbacks := fun _ => none })

/-- `list_inputs` (`src/session.py:47-51`): the sorted listing of the input
directory, raising `ValueError` when it is empty. -/
def list_inputs (env : Env) : Except PyError (List Path) :=
  if list_images env.inputDir = [] then
    Except.error (PyError.valueError "No input images found")
  else Except.ok (list_images env.inputDir)

/-- The `try: ... except ValueError: ...` block of `stylise_image`
(`src/session.py:71-77`): resolve the fingerprint to render with — the
primary one when the call succeeds, and only on a `ValueError` the cached
per-image fallback, computing and caching a fresh fallback from that single
image when none exists yet. -/
def stylise_fingerprint_for (env : Env) (s : SessionState) (input : Path) :
    Except PyError StyleFingerprint × SessionState :=
  match StyleTransferSession.fingerprint env s with
  | (Except.ok fp, s1) => (Except.ok fp, s1)
  | (Except.error (PyError.valueError _), s1) =>
    match s1.fallbacks input with
    | some fp => (Except.ok fp, s1)
    | none =>
      match env.computeFp [input] with
      | Except.error e => (Except.error e, s1)
      | Except.ok fp =>
        (Except.ok fp, { s1 with fallbacks := fun p => if p = input then some fp else s1.fallbacks p })
  | (Except.error e, s1) => (Except.error e, s1)

/-- `stylise_image` (`src/session.py:69-79`): resolve a fingerprint, then
render with that image's parameter record to the deterministic output
location keyed by the input's name (modelled by the name itself in the
output set), returning that location. -/
def stylise_image (env : Env) (w : World) (input : Path) :
    Except PyError Path × World :=
  match stylise_fingerprint_for env w.session input with
  | (Except.error e, s1) => (Except.error e, { w with session := s1 })
  | (Except.ok fp, s1) =>
    match env.render input fp (s1.imageParams input) with
    | Except.error e => (Except.error e, { w with session := s1 })
    | Except.ok _ =>
      (Except.ok input,
        { session := s1,
          outputs := if input ∈ w.outputs then w.outputs else w.outputs ++ [input] })

/-- The loop body of `stylise_all` (`src/session.py:83-86`): run
`stylise_image` over the listed inputs in order; the first exception
propagates, discarding the collected result list but keeping every state
change already made. -/
def stylise_batch (env : Env) : List Path → World → Except PyError (List StylisedImage) × World
  | [], w => (Except.ok [], w)
  | p :: rest, w =>
    match stylise_image env w p with
    | (Except.error e, w1) => (Except.error e, w1)
    | (Except.ok out, w1) =>
      match stylise_batch env rest w1 with
      | (Except.error e, w2) => (Except.error e, w2)
      | (Except.ok tail, w2) => (Except.ok (StylisedImage.mk p out :: tail), w2)

/-- `stylise_all` (`src/session.py:81-86`). -/
def stylise_all (env : Env) (w : World) :
    Except PyError (List StylisedImage) × World :=
  match list_inputs env with
  | Except.error e => (Except.error e, w)
  | Except.ok inputs => stylise_batch env inputs w

/-- `apply_feedback` (`src/session.py:121-127`): delegate to
`interpret_feedback` (the LLM response being the external oracle `llm`) and
commit the returned record only when `changed` is true.  Returns
`(changed, messages)` with the post-call state. -/
def apply_feedback (llm : Option LlmResult) (s : SessionState)
    (feedback : String) (input : Path) : (Bool × List String) × SessionState :=
  match interpret_feedback feedback (s.imageParams input) llm with
  | (updated, true, messages) =>
    ((true, messages),
      { s with imageParams := fun p => if p = input then updated else s.imageParams p })
  | (_, false, messages) => ((false, messages), s)

end StyleTransferSession

/-! ### Session helper lemmas -/

theorem fingerprint_cached (env : Env) (s : SessionState) (fp : StyleFingerprint)
    (h : s.fingerprint = some fp) :
    StyleTransferSession.fingerprint env s = (Except.ok fp, s) := by
  unfold StyleTransferSession.fingerprint
  rw [h]

theorem fingerprint_refs_empty (env : Env) (s : SessionState)
    (h1 : s.fingerprint = none) (h2 : list_images env.referenceDir = []) :
    StyleTransferSession.fingerprint env s
      = (Except.error (PyError.valueError "No reference images found"), s) := by
  unfold StyleTransferSession.fingerprint
  rw [h1, if_pos h2]

theorem fingerprint_computes (env : Env) (s : SessionState) (fp : StyleFingerprint)
    (h1 : s.fingerprint = none) (h2 : list_images env.referenceDir ≠ [])
    (h3 : env.computeFp (list_images env.referenceDir) = Except.ok fp) :
    StyleTransferSession.fingerprint env s
      = (Except.ok fp, { s with fingerprint := some fp, fallbacks := fun _ => none }) := by
  unfold StyleTransferSession.fingerprint
  rw [h1, if_neg h2, h3]

theorem fingerprint_compute_error (env : Env) (s : SessionState) (e : PyError)
    (h1 : s.fingerprint = none) (h2 : list_images env.referenceDir ≠ [])
    (h3 : env.computeFp (list_images env.referenceDir) = Except.error e) :
    StyleTransferSession.fingerprint env s = (Except.error e, s) := by
  unfold StyleTransferSession.fingerprint
  rw [h1, if_neg h2, h3]

theorem refresh_fingerprint_error (env : Env) (s : SessionState) (e : PyError)
    (h2 : list_images env.referenceDir ≠ [])
    (h3 : env.computeFp (list_images env.referenceDir) = Except.error e) :
    StyleTransferSession.refresh_fingerprint env s = (Except.error e, s) := by
  unfold StyleTransferSession.refresh_fingerprint
  rw [if_neg h2, h3]

theorem stylise_image_outputs_mono (env : Env) (w : World) (input : Path) :
    ∀ o ∈ w.outputs, o ∈ (StyleTransferSession.stylise_image env w input).2.outputs := by
  intro o ho
  unfold StyleTransferSession.stylise_image
  rcases hres : StyleTransferSession.stylise_fingerprint_for env w.session input with ⟨res, s1⟩
  cases res with
  | error e => simp only [hres]; exact ho
  | ok fp =>
    cases hr : env.render input fp (s1.imageParams input) with
    | error e => simp only [hres, hr]; exact ho
    | ok u =>
      simp only [hres, hr]
      by_cases hin : input ∈ w.outputs
      · simp only [if_pos hin]; exact ho
      · simp only [if_neg hin]; exact List.mem_append_left _ ho

theorem stylise_image_ok_mem (env : Env) (w : World) (input out : Path) (w1 : World)
    (h : StyleTransferSession.stylise_image env w input = (Except.ok out, w1)) :
    out ∈ w1.outputs := by
  unfold StyleTransferSession.stylise_image at h
  rcases hres : StyleTransferSession.stylise_fingerprint_for env w.session input with ⟨res, s1⟩
  rw [hres] at h
  cases res with
  | error e => simp at h
  | ok fp =>
    cases hr : env.render input fp (s1.imageParams input) with
    | error e => simp only [hr] at h; simp at h
    | ok u =>
      simp only [hr] at h
      obtain ⟨hout, hw⟩ := Prod.mk.injEq .. ▸ h
      obtain rfl : input = out := by simpa using hout
      rw [← hw]
      by_cases hin : input ∈ w.outputs
      · simp only [if_pos hin]; exact hin
      · simp only [if_neg hin]; exact List.mem_append_right _ (by simp)

theorem stylise_batch_outputs_mono (env : Env) :
    ∀ (l : List Path) (w : World) (o : Path), o ∈ w.outputs →
      o ∈ (StyleTransferSession.stylise_batch env l w).2.outputs := by
  intro l
  induction l with
  | nil => intro w o ho; exact ho
  | cons p rest ih =>
    intro w o ho
    unfold StyleTransferSession.stylise_batch
    rcases h1 : StyleTransferSession.stylise_image env w p with ⟨res, w1⟩
    have ho1 : o ∈ w1.outputs := by
      have := stylise_image_outputs_mono env w p o ho
      rw [h1] at this
      exact this
    cases res with
    | error e => simp only [h1]; exact ho1
    | ok out =>
      rcases h2 : StyleTransferSession.stylise_batch env rest w1 with ⟨res2, w2⟩
      have ho2 : o ∈ w2.outputs := by
        have := ih w1 o ho1
        rw [h2] at this
        exact this
      cases res2 with
      | error e => simp only [h1, h2]; exact ho2
      | ok tail => simp only [h1, h2]; exact ho2

theorem stylise_batch_ok_inputs (env : Env) :
    ∀ (l : List Path) (w : World) (results : List StylisedImage) (w2 : World),
      StyleTransferSession.stylise_batch env l w = (Except.ok results, w2) →
      results.map (fun si => si.input_path) = l := by
  intro l
  induction l with
  | nil =>
    intro w results w2 h
    unfold StyleTransferSession.stylise_batch at h
    obtain ⟨h1, _⟩ := Prod.mk.injEq .. ▸ h
    obtain rfl : ([] : List StylisedImage) = results := by simpa using h1
    rfl
  | cons p rest ih =>
    intro w results w2 h
    unfold StyleTransferSession.stylise_batch at h
    rcases h1 : StyleTransferSession.stylise_image env w p with ⟨res, w1⟩
    simp only [h1] at h
    cases res with
    | error e => simp at h
    | ok out =>
      rcases h2 : StyleTransferSession.stylise_batch env rest w1 with ⟨res2, wtail⟩
      simp only [h2] at h
      cases res2 with
      | error e => simp at h
      | ok tail =>
        obtain ⟨hres, _⟩ := Prod.mk.injEq .. ▸ h
        obtain rfl : StylisedImage.mk p out :: tail = results := by simpa using hres
        simp only [List.map_cons]
        rw [ih w1 tail wtail h2]

/-! ## Claim theorems -/

/-- Claim C1: for every non-empty sequence of reference images the
fingerprint returned by `FingerprintExtractor.compute` satisfies the
asymmetric aggregation formulas exactly — componentwise, `clip_mean` is the
arithmetic mean of the per-image embeddings, `clip_std` the standard
deviation (square root of the cross-image variance) of the embeddings
across images, `color_mean` the arithmetic mean of the per-image channel
means, and `color_std` the arithmetic mean of the per-image channel
standard deviations, not the cross-image std of the means. -/
theorem C1_compute_aggregation (sqrt : ℚ → ℚ) (images : List ImageStats) (D : ℕ)
    (hne : images ≠ [])
    (hD : ∀ i ∈ images, i.embedding.length = D)
    (hc3 : ∀ i ∈ images, i.colorMean.length = 3 ∧ i.colorStd.length = 3) :
    ∃ fp, compute sqrt images = Except.ok fp ∧
      (∀ j, j < D → fp.clip_mean.getD j 0
        = componentMean (images.map (fun i => i.embedding)) j) ∧
      (∀ j, j < D → fp.clip_std.getD j 0
        = sqrt (componentVariance (images.map (fun i => i.embedding)) j)) ∧
      (∀ j, j < 3 → fp.color_mean.getD j 0
        = componentMean (images.map (fun i => i.colorMean)) j) ∧
      (∀ j, j < 3 → fp.color_std.getD j 0
        = componentMean (images.map (fun i => i.colorStd)) j) := by
  have hemp : (images.map fun i => i.embedding).isEmpty = false := by
    cases images with
    | nil => exact absurd rfl hne
    | cons a l => rfl
  have hene : images.map (fun i => i.embedding) ≠ [] := by
    cases images with
    | nil => exact absurd rfl hne
    | cons a l => simp
  have hcne : images.map (fun i => i.colorMean) ≠ [] := by
    cases images with
    | nil => exact absurd rfl hne
    | cons a l => simp
  have hsne : images.map (fun i => i.colorStd) ≠ [] := by
    cases images with
    | nil => exact absurd rfl hne
    | cons a l => simp
  have hEl : ∀ v ∈ images.map (fun i => i.embedding), v.length = D := by
    intro v hv
    rcases List.mem_map.mp hv with ⟨i, hi, rfl⟩
    exact hD i hi
  have hCl : ∀ v ∈ images.map (fun i => i.colorMean), v.length = 3 := by
    intro v hv
    rcases List.mem_map.mp hv with ⟨i, hi, rfl⟩
    exact (hc3 i hi).1
  have hSl : ∀ v ∈ images.map (fun i => i.colorStd), v.length = 3 := by
    intro v hv
    rcases List.mem_map.mp hv with ⟨i, hi, rfl⟩
    exact (hc3 i hi).2
  refine ⟨{ clip_mean := npMeanAxis0 (images.map fun i => i.embedding)
            clip_std := npStdAxis0 sqrt (images.map fun i => i.embedding)
            color_mean := npMeanAxis0 (images.map fun i => i.colorMean)
            color_std := npMeanAxis0 (images.map fun i => i.colorStd) }, ?_, ?_, ?_, ?_, ?_⟩
  · simp [compute, hemp]
  · intro j hj
    exact npMeanAxis0_getD D j _ hene hEl hj
  · intro j hj
    show (npStdAxis0 sqrt _).getD j 0 = _
    rw [npStdAxis0, getD_map sqrt _ j (by rw [npVarAxis0_length D _ hene hEl]; exact hj),
      npVarAxis0_getD D j _ hene hEl hj]
  · intro j hj
    exact npMeanAxis0_getD 3 j _ hcne hCl hj
  · intro j hj
    exact npMeanAxis0_getD 3 j _ hsne hSl hj

/-- Concrete two-image input for the C1 witness: one-dimensional embeddings
3 and 1 (mean 2, variance 1) and simple channel statistics. -/
def C1imgs : List ImageStats :=
  [{ embedding := [3], colorMean := [1, 0, 0], colorStd := [0, 1, 0] },
   { embedding := [1], colorMean := [0, 1, 0], colorStd := [2, 1, 0] }]

/-- Witness for C1 at the concrete input `C1imgs` with the identity in
place of the square root. -/
theorem C1_compute_aggregation_witness :
    ∃ fp, compute (fun q => q) C1imgs = Except.ok fp ∧
      (∀ j, j < 1 → fp.clip_mean.getD j 0
        = componentMean (C1imgs.map (fun i => i.embedding)) j) ∧
      (∀ j, j < 1 → fp.clip_std.getD j 0
        = (fun q => q) (componentVariance (C1imgs.map (fun i => i.embedding)) j)) ∧
      (∀ j, j < 3 → fp.color_mean.getD j 0
        = componentMean (C1imgs.map (fun i => i.colorMean)) j) ∧
      (∀ j, j < 3 → fp.color_std.getD j 0
        = componentMean (C1imgs.map (fun i => i.colorStd)) j) :=
  C1_compute_aggregation (fun q => q) C1imgs 1 (by simp [C1imgs])
    (by simp [C1imgs]) (by simp [C1imgs])

/-- Claim C2 is false on the code: `set_parameter` clamps every numeric
value, and a rotation value is numeric, so storing 270 as
`rotation_degrees` stores the float 100, not 270 as given. -/
theorem C2_counterexample :
    StyleTransferSession.set_parameter (fun _ => PyValue.int 0) "rotation_degrees"
        (PyValue.int 270) "rotation_degrees" = PyValue.float 100 ∧
      PyValue.float 100 ≠ PyValue.int 270 := by
  constructor
  · unfold StyleTransferSession.set_parameter StyleTransferSession.set_parameter_value
    rw [if_pos rfl]
    simp only [PyValue.float.injEq]
    norm_num
  · intro h
    exact PyValue.noConfusion h

/-- Claim C2 as amended: `set_parameter` clamps every int, float and bool
value into [-100, 100] and stores it as a float — 150 stores exactly 100
and -500 stores exactly -100, but a bool is coerced to the float 1.0 / 0.0
(Python's `bool` is a subclass of `int`) and a rotation value passed
through this call is clamped like any other number, not stored as given;
only non-numeric values are stored unmodified, and other attributes are
untouched. -/
theorem C2_set_parameter_amended (attrs : String → PyValue) (name : String) :
    StyleTransferSession.set_parameter attrs name (PyValue.float 150) name
        = PyValue.float 100 ∧
      StyleTransferSession.set_parameter attrs name (PyValue.float (-500)) name
        = PyValue.float (-100) ∧
      (∀ q : ℚ, StyleTransferSession.set_parameter attrs name (PyValue.float q) name
        = PyValue.float (max (-100) (min 100 q))) ∧
      (∀ n : ℤ, StyleTransferSession.set_parameter attrs name (PyValue.int n) name
        = PyValue.float (max (-100) (min 100 (n : ℚ)))) ∧
      (∀ b : Bool, StyleTransferSession.set_parameter attrs name (PyValue.bool b) name
        = PyValue.float (if b then 1 else 0)) ∧
      (∀ s : String, StyleTransferSession.set_parameter attrs name (PyValue.str s) name
        = PyValue.str s) ∧
      (∀ value k, k ≠ name →
        StyleTransferSession.set_parameter attrs name value k = attrs k) := by
  have base : ∀ value, StyleTransferSession.set_parameter attrs name value name
      = StyleTransferSession.set_parameter_value value := by
    intro value
    unfold StyleTransferSession.set_parameter
    rw [if_pos rfl]
  refine ⟨?_, ?_, ?_, ?_, ?_, ?_, ?_⟩
  · rw [base]
    unfold StyleTransferSession.set_parameter_value
    simp only [PyValue.float.injEq]
    norm_num
  · rw [base]
    unfold StyleTransferSession.set_parameter_value
    simp only [PyValue.float.injEq]
    norm_num
  · intro q
    rw [base]
    rfl
  · intro n
    rw [base]
    rfl
  · intro b
    rw [base]
    unfold StyleTransferSession.set_parameter_value
    simp only [PyValue.float.injEq]
    cases b <;> norm_num
  · intro s
    rw [base]
    rfl
  · intro value k hk
    unfold StyleTransferSession.set_parameter
    rw [if_neg hk]

/-- Witness for the amended C2 at concrete inputs: 150 stores 100 under
the written name and other attributes are untouched. -/
theorem C2_set_parameter_witness :
    StyleTransferSession.set_parameter (fun _ => PyValue.int 7) "strength"
        (PyValue.float 150) "strength" = PyValue.float 100 ∧
      StyleTransferSession.set_parameter (fun _ => PyValue.int 7) "strength"
        (PyValue.float 150) "contrast" = PyValue.int 7 :=
  ⟨(C2_set_parameter_amended (fun _ => PyValue.int 7) "strength").1,
    (C2_set_parameter_amended (fun _ => PyValue.int 7) "strength").2.2.2.2.2.2
      (PyValue.float 150) "contrast" (by decide)⟩

/-- The lowercased extension of a file name (what follows the last dot),
used to state the case-insensitivity of claim C7. -/
def lowerExt (name : String) : String :=
  String.mk (((name.data.reverse.takeWhile (fun c => c ≠ '.')).reverse).map Char.toLower)

/-- Claim C7 is false on the code: listing is not case-insensitive on the
extension.  `photo.Jpg` has extension `jpg` up to letter-casing, yet
`list_images` does not list it: the glob patterns cover only the
all-lowercase and all-uppercase spellings. -/
theorem C7_counterexample :
    lowerExt "photo.Jpg" = "jpg" ∧ list_images ["photo.Jpg"] = [] := by
  constructor
  · rfl
  · rfl

/-- Claim C7 as amended: the listing returns, in a stable sorted order,
exactly the files whose name ends in one of the eight literal suffixes —
the all-lowercase and the all-uppercase spelling of jpg, jpeg, png and bmp;
mixed-case extensions are not matched. -/
theorem C7_amended_listing (directory : List String) :
    List.Sorted (· ≤ ·) (list_images directory) ∧
    ∀ name, name ∈ list_images directory ↔
      name ∈ directory ∧
        ∃ suffix ∈ ([".jpg", ".jpeg", ".png", ".bmp",
            ".JPG", ".JPEG", ".PNG", ".BMP"] : List String),
          List.isSuffixOf suffix.data name.data = true := by
  constructor
  · exact sortStrings_sorted _
  · intro name
    rw [mem_list_images]
    apply and_congr_right
    intro _
    simp only [IMAGE_PATTERNS, List.mem_cons, List.not_mem_nil, or_false, globMatch]
    constructor
    · rintro ⟨p, hp, hm⟩
      rcases hp with rfl | rfl | rfl | rfl | rfl | rfl | rfl | rfl
      · exact ⟨".jpg", by simp, hm⟩
      · exact ⟨".jpeg", by simp, hm⟩
      · exact ⟨".png", by simp, hm⟩
      · exact ⟨".bmp", by simp, hm⟩
      · exact ⟨".JPG", by simp, hm⟩
      · exact ⟨".JPEG", by simp, hm⟩
      · exact ⟨".PNG", by simp, hm⟩
      · exact ⟨".BMP", by simp, hm⟩
    · rintro ⟨suffix, hs, hm⟩
      rcases hs with rfl | rfl | rfl | rfl | rfl | rfl | rfl | rfl
      · exact ⟨"*.jpg", Or.inl rfl, hm⟩
      · exact ⟨"*.jpeg", Or.inr (Or.inl rfl), hm⟩
      · exact ⟨"*.png", Or.inr (Or.inr (Or.inl rfl)), hm⟩
      · exact ⟨"*.bmp", Or.inr (Or.inr (Or.inr (Or.inl rfl))), hm⟩
      · exact ⟨"*.JPG", Or.inr (Or.inr (Or.inr (Or.inr (Or.inl rfl)))), hm⟩
      · exact ⟨"*.JPEG", Or.inr (Or.inr (Or.inr (Or.inr (Or.inr (Or.inl rfl))))), hm⟩
      · exact ⟨"*.PNG", Or.inr (Or.inr (Or.inr (Or.inr (Or.inr (Or.inr (Or.inl rfl)))))), hm⟩
      · exact ⟨"*.BMP", Or.inr (Or.inr (Or.inr (Or.inr (Or.inr (Or.inr (Or.inr rfl)))))), hm⟩

/-- Claim C4: `ensure_fingerprint` (`StyleTransferSession.fingerprint`)
returns the cached primary fingerprint without recomputing (the state is
unchanged); raises a ValueError when there is no cache and the reference
set lists no images; otherwise computes from the current reference set,
caches the result, and clears every per-image fallback entry. -/
theorem C4_ensure_fingerprint (env : Env) (s : SessionState) :
    (∀ fp, s.fingerprint = some fp →
      StyleTransferSession.fingerprint env s = (Except.ok fp, s)) ∧
    (s.fingerprint = none → list_images env.referenceDir = [] →
      StyleTransferSession.fingerprint env s
        = (Except.error (PyError.valueError "No reference images found"), s)) ∧
    (∀ fp, s.fingerprint = none → list_images env.referenceDir ≠ [] →
      env.computeFp (list_images env.referenceDir) = Except.ok fp →
      StyleTransferSession.fingerprint env s
        = (Except.ok fp, { s with fingerprint := some fp, fallbacks := fun _ => none })) :=
  ⟨fun fp h => fingerprint_cached env s fp h,
   fun h1 h2 => fingerprint_refs_empty env s h1 h2,
   fun fp h1 h2 h3 => fingerprint_computes env s fp h1 h2 h3⟩

/-- A concrete fingerprint for the witnesses. -/
def fpA : StyleFingerprint :=
  { clip_mean := [1], clip_std := [0],
    color_mean := [1/2, 1/2, 1/2], color_std := [0, 0, 0] }

/-- A fresh session state: nothing cached, all parameter records default. -/
def s0 : SessionState :=
  { fingerprint := none, imageParams := fun _ => {}, fallbacks := fun _ => none }

/-- An environment with one reference image and an extractor that
succeeds. -/
def envA : Env :=
  { referenceDir := ["a.jpg"], inputDir := ["b.png"],
    computeFp := fun _ => Except.ok fpA,
    render := fun _ _ _ => Except.ok Unit.unit }

/-- Witness for C4: on a fresh state with one reference image the
fingerprint is computed, cached, and the fallback table cleared. -/
theorem C4_ensure_fingerprint_witness :
    StyleTransferSession.fingerprint envA s0
      = (Except.ok fpA, { s0 with fingerprint := some fpA, fallbacks := fun _ => none }) :=
  (C4_ensure_fingerprint envA s0).2.2 fpA rfl (by decide) rfl

/-- Claim C8: a fingerprint-computation failure (an extractor error on a
non-empty reference listing) aborts only the triggering call — both
`ensure_fingerprint` and `refresh_fingerprint` return with the session
state exactly as it was: primary cache, fallback cache and every parameter
record untouched. -/
theorem C8_failure_preserves_state (env : Env) (s : SessionState) (e : PyError) :
    (s.fingerprint = none → list_images env.referenceDir ≠ [] →
      env.computeFp (list_images env.referenceDir) = Except.error e →
      StyleTransferSession.fingerprint env s = (Except.error e, s)) ∧
    (list_images env.referenceDir ≠ [] →
      env.computeFp (list_images env.referenceDir) = Except.error e →
      StyleTransferSession.refresh_fingerprint env s = (Except.error e, s)) :=
  ⟨fun h1 h2 h3 => fingerprint_compute_error env s e h1 h2 h3,
   fun h2 h3 => refresh_fingerprint_error env s e h2 h3⟩

/-- An environment whose extractor always fails with a non-ValueError. -/
def envBad : Env :=
  { referenceDir := ["a.jpg"], inputDir := [],
    computeFp := fun _ => Except.error (PyError.otherError "decode failure"),
    render := fun _ _ _ => Except.ok Unit.unit }

/-- Witness for C8 at a failing extractor: both calls propagate the error
and leave the fresh state untouched. -/
theorem C8_failure_preserves_state_witness :
    StyleTransferSession.fingerprint envBad s0
        = (Except.error (PyError.otherError "decode failure"), s0) ∧
      StyleTransferSession.refresh_fingerprint envBad s0
        = (Except.error (PyError.otherError "decode failure"), s0) :=
  ⟨(C8_failure_preserves_state envBad s0 (PyError.otherError "decode failure")).1
      rfl (by decide) rfl,
   (C8_failure_preserves_state envBad s0 (PyError.otherError "decode failure")).2
      (by decide) rfl⟩

/-- Claim C3: `stylise_image` resolves its fingerprint with the claimed
priority — the cached primary; else one computed from a non-empty reference
set (cached, fallbacks cleared); else the per-image fallback cached under
the image's identity; else a fallback computed from that single image and
cached under its identity before rendering (so it is cached even when the
subsequent render fails). -/
theorem C3_stylise_fingerprint_resolution (env : Env) (s : SessionState) (input : Path) :
    (∀ fp, s.fingerprint = some fp →
      StyleTransferSession.stylise_fingerprint_for env s input = (Except.ok fp, s)) ∧
    (∀ fp, s.fingerprint = none → list_images env.referenceDir ≠ [] →
      env.computeFp (list_images env.referenceDir) = Except.ok fp →
      StyleTransferSession.stylise_fingerprint_for env s input
        = (Except.ok fp, { s with fingerprint := some fp, fallbacks := fun _ => none })) ∧
    (∀ fb, s.fingerprint = none → list_images env.referenceDir = [] →
      s.fallbacks input = some fb →
      StyleTransferSession.stylise_fingerprint_for env s input = (Except.ok fb, s)) ∧
    (∀ fb, s.fingerprint = none → list_images env.referenceDir = [] →
      s.fallbacks input = none → env.computeFp [input] = Except.ok fb →
      StyleTransferSession.stylise_fingerprint_for env s input
        = (Except.ok fb,
           { s with fallbacks := fun p => if p = input then some fb else s.fallbacks p })) ∧
    (∀ fb e outs, s.fingerprint = none → list_images env.referenceDir = [] →
      s.fallbacks input = none → env.computeFp [input] = Except.ok fb →
      env.render input fb (s.imageParams input) = Except.error e →
      StyleTransferSession.stylise_image env (World.mk s outs) input
        = (Except.error e,
           World.mk
             { s with fallbacks := fun p => if p = input then some fb else s.fallbacks p }
             outs)) := by
  refine ⟨?_, ?_, ?_, ?_, ?_⟩
  · intro fp h
    unfold StyleTransferSession.stylise_fingerprint_for
    simp only [fingerprint_cached env s fp h]
  · intro fp h1 h2 h3
    unfold StyleTransferSession.stylise_fingerprint_for
    simp only [fingerprint_computes env s fp h1 h2 h3]
  · intro fb h1 h2 hf
    unfold StyleTransferSession.stylise_fingerprint_for
    simp only [fingerprint_refs_empty env s h1 h2, hf]
  · intro fb h1 h2 hf hc
    unfold StyleTransferSession.stylise_fingerprint_for
    simp only [fingerprint_refs_empty env s h1 h2, hf, hc]
  · intro fb e outs h1 h2 hf hc hr
    have hres : StyleTransferSession.stylise_fingerprint_for env s input
        = (Except.ok fb,
           { s with fallbacks := fun p => if p = input then some fb else s.fallbacks p }) := by
      unfold StyleTransferSession.stylise_fingerprint_for
      simp only [fingerprint_refs_empty env s h1 h2, hf, hc]
    unfold StyleTransferSession.stylise_image
    simp only [hres, hr]

/-- An environment with an empty reference directory, so no primary
fingerprint can ever be computed. -/
def envNoRefs : Env :=
  { referenceDir := [], inputDir := ["b.png"],
    computeFp := fun _ => Except.ok fpA,
    render := fun _ _ _ => Except.ok Unit.unit }

/-- Witness for C3: with no references and no cached fallback, a fallback
is computed from the single image and cached under its identity. -/
theorem C3_stylise_fingerprint_resolution_witness :
    StyleTransferSession.stylise_fingerprint_for envNoRefs s0 "b.png"
      = (Except.ok fpA,
         { s0 with fallbacks := fun p => if p = "b.png" then some fpA else s0.fallbacks p }) :=
  (C3_stylise_fingerprint_resolution envNoRefs s0 "b.png").2.2.2.1 fpA rfl rfl rfl rfl

/-- Claim C10: when the input directory lists no images, `stylise_all`
raises a ValueError through `list_inputs` instead of returning an empty
result list. -/
theorem C10_empty_inputs_error (env : Env) (w : World)
    (h : list_images env.inputDir = []) :
    StyleTransferSession.stylise_all env w
        = (Except.error (PyError.valueError "No input images found"), w) ∧
      ∀ results w2, StyleTransferSession.stylise_all env w ≠ (Except.ok results, w2) := by
  have hli : StyleTransferSession.list_inputs env
      = Except.error (PyError.valueError "No input images found") := by
    unfold StyleTransferSession.list_inputs
    rw [if_pos h]
  constructor
  · unfold StyleTransferSession.stylise_all
    simp only [hli]
  · intro results w2 hcon
    unfold StyleTransferSession.stylise_all at hcon
    simp only [hli] at hcon
    simp at hcon

/-- The fresh world for the witnesses. -/
def w0 : World := { session := s0, outputs := [] }

/-- An environment whose input directory is empty. -/
def envEmptyIn : Env :=
  { referenceDir := ["a.jpg"], inputDir := [],
    computeFp := fun _ => Except.ok fpA,
    render := fun _ _ _ => Except.ok Unit.unit }

/-- Witness for C10 on an empty input directory. -/
theorem C10_empty_inputs_error_witness :
    StyleTransferSession.stylise_all envEmptyIn w0
      = (Except.error (PyError.valueError "No input images found"), w0) :=
  (C10_empty_inputs_error envEmptyIn w0 rfl).1

/-- Claim C5: `stylise_all` processes exactly the listed input images in
the stable sorted order of the listing; the first failing image aborts the
batch with that error, the remaining images untouched; and the output
written for an earlier successful image persists through the rest of the
batch whatever happens afterwards. -/
theorem C5_stylise_all_fail_fast (env : Env) (w : World) :
    (∀ results w2, StyleTransferSession.stylise_all env w = (Except.ok results, w2) →
      results.map (fun si => si.input_path) = list_images env.inputDir) ∧
    List.Sorted (· ≤ ·) (list_images env.inputDir) ∧
    (∀ a rest e w1, StyleTransferSession.stylise_image env w a = (Except.error e, w1) →
      StyleTransferSession.stylise_batch env (a :: rest) w = (Except.error e, w1)) ∧
    (∀ a rest out w1, StyleTransferSession.stylise_image env w a = (Except.ok out, w1) →
      out ∈ (StyleTransferSession.stylise_batch env rest w1).2.outputs) := by
  refine ⟨?_, ?_, ?_, ?_⟩
  · intro results w2 h
    unfold StyleTransferSession.stylise_all at h
    by_cases hin : list_images env.inputDir = []
    · have hli : StyleTransferSession.list_inputs env
          = Except.error (PyError.valueError "No input images found") := by
        unfold StyleTransferSession.list_inputs
        rw [if_pos hin]
      simp only [hli] at h
      simp at h
    · have hli : StyleTransferSession.list_inputs env
          = Except.ok (list_images env.inputDir) := by
        unfold StyleTransferSession.list_inputs
        rw [if_neg hin]
      simp only [hli] at h
      exact stylise_batch_ok_inputs env (list_images env.inputDir) w results w2 h
  · unfold list_images
    exact sortStrings_sorted _
  · intro a rest e w1 h
    unfold StyleTransferSession.stylise_batch
    simp only [h]
  · intro a rest out w1 h
    exact stylise_batch_outputs_mono env rest w1 out (stylise_image_ok_mem env w a out w1 h)

/-- An environment where rendering `a.jpg` succeeds and any other render
fails: the second image of the sorted batch will abort it. -/
def envC5 : Env :=
  { referenceDir := ["a.jpg"], inputDir := ["b.png", "a.jpg"],
    computeFp := fun _ => Except.ok fpA,
    render := fun p _ _ =>
      if p = "a.jpg" then Except.ok Unit.unit
      else Except.error (PyError.otherError "render failure") }

/-- A session state that already holds the primary fingerprint. -/
def sFp : SessionState :=
  { fingerprint := some fpA, imageParams := fun _ => {}, fallbacks := fun _ => none }

/-- The fresh world over `sFp`. -/
def wFp : World := { session := sFp, outputs := [] }

/-- Witness for C5: after `a.jpg` renders successfully, its output stays on
disk through the remainder of the batch (whose next image fails). -/
theorem C5_stylise_all_fail_fast_witness :
    "a.jpg" ∈ (StyleTransferSession.stylise_batch envC5 ["b.png"]
        (World.mk sFp ["a.jpg"])).2.outputs :=
  (C5_stylise_all_fail_fast envC5 wFp).2.2.2 "a.jpg" ["b.png"] "a.jpg"
    (World.mk sFp ["a.jpg"]) rfl

/-- Claim C6: `apply_feedback` commits the interpreter's record only when
the returned `changed` flag is true — the stored state is unchanged when it
is false — and the committed record always has all nine numeric fields in
[-100, 100] (for the unchanged case this needs the stored record to have
been in range, which every writer maintains). -/
theorem C6_apply_feedback (llm : Option LlmResult) (s : SessionState)
    (feedback : String) (input : Path) :
    ((StyleTransferSession.apply_feedback llm s feedback input).1.1 = false →
      (StyleTransferSession.apply_feedback llm s feedback input).2 = s) ∧
    ((StyleTransferSession.apply_feedback llm s feedback input).1.1 = true →
      paramsInRange
        ((StyleTransferSession.apply_feedback llm s feedback input).2.imageParams input)) ∧
    (paramsInRange (s.imageParams input) →
      paramsInRange
        ((StyleTransferSession.apply_feedback llm s feedback input).2.imageParams input)) := by
  rcases hI : interpret_feedback feedback (s.imageParams input) llm with ⟨u, c, msgs⟩
  cases c with
  | false =>
    have happ : StyleTransferSession.apply_feedback llm s feedback input = ((false, msgs), s) := by
      unfold StyleTransferSession.apply_feedback
      simp only [hI]
    refine ⟨fun _ => by rw [happ], ?_, ?_⟩
    · intro h
      rw [happ] at h
      simp at h
    · intro h
      rw [happ]
      exact h
  | true =>
    obtain ⟨v, hv⟩ : ∃ v, u = clamp_parameters v := by
      have hchg := interpret_feedback_changed feedback (s.imageParams input) llm (by rw [hI])
      rw [hI] at hchg
      simpa using hchg
    subst hv
    have happ : StyleTransferSession.apply_feedback llm s feedback input
        = ((true, msgs),
           { s with imageParams :=
              fun p => if p = input then clamp_parameters v else s.imageParams p }) := by
      unfold StyleTransferSession.apply_feedback
      simp only [hI]
    refine ⟨?_, ?_, ?_⟩
    · intro h
      rw [happ] at h
      simp at h
    · intro _
      rw [happ]
      show paramsInRange (if input = input then clamp_parameters v else s.imageParams input)
      rw [if_pos rfl]
      exact clamp_parameters_inRange v
    · intro _
      rw [happ]
      show paramsInRange (if input = input then clamp_parameters v else s.imageParams input)
      rw [if_pos rfl]
      exact clamp_parameters_inRange v

/-- A concrete LLM response asking for a far-out-of-range strength nudge. -/
def rC6 : LlmResult := { strength_delta := some 500 }

/-- Witness for C6: an out-of-range interpreter delta is committed clamped,
leaving every numeric field of the stored record in range. -/
theorem C6_apply_feedback_witness :
    paramsInRange
      ((StyleTransferSession.apply_feedback (some rC6) s0 "more punch" "b.png").2.imageParams "b.png") :=
  (C6_apply_feedback (some rC6) s0 "more punch" "b.png").2.1 rfl

/-- Claim C9: a rotation increment delivered through feedback
interpretation wraps modulo 360 into [0, 360): the stored rotation becomes
`(r + d) % 360` for current rotation `r` and delta `d`. -/
theorem C9_rotation_wraps (llm : LlmResult) (s : SessionState) (feedback : String)
    (input : Path) (d : ℤ)
    (hf : pyStrip feedback ≠ "")
    (hr : llm.rotation = some d) (hreset : llm.reset = none) :
    ((StyleTransferSession.apply_feedback (some llm) s feedback input).2.imageParams input).rotation_degrees
        = ((s.imageParams input).rotation_degrees + d) % 360 ∧
      0 ≤ ((s.imageParams input).rotation_degrees + d) % 360 ∧
      ((s.imageParams input).rotation_degrees + d) % 360 < 360 := by
  obtain ⟨hrot, hch⟩ := apply_llm_result_rotation (s.imageParams input) llm d hr hreset
  rcases hA : apply_llm_result (s.imageParams input) llm with ⟨u, c⟩
  rw [hA] at hrot hch
  replace hrot : u.rotation_degrees = ((s.imageParams input).rotation_degrees + d) % 360 := hrot
  replace hch : c = true := hch
  subst hch
  have hI : interpret_feedback feedback (s.imageParams input) (some llm)
      = (clamp_parameters u, true, llm.messages) := by
    unfold interpret_feedback
    rw [if_neg hf]
    simp only [hA]
  have happ : StyleTransferSession.apply_feedback (some llm) s feedback input
      = ((true, llm.messages),
         { s with imageParams :=
            fun p => if p = input then clamp_parameters u else s.imageParams p }) := by
    unfold StyleTransferSession.apply_feedback
    simp only [hI]
  refine ⟨?_, Int.emod_nonneg _ (by norm_num), Int.emod_lt_of_pos _ (by norm_num)⟩
  rw [happ]
  show (if input = input then clamp_parameters u else s.imageParams input).rotation_degrees = _
  rw [if_pos rfl, clamp_parameters_rotation, hrot]

/-- A concrete LLM response delivering a rotation delta of 30 degrees. -/
def rC9 : LlmResult := { rotation := some 30 }

/-- A session state whose stored rotation for every image is 350°. -/
def s350 : SessionState :=
  { fingerprint := none, imageParams := fun _ => { rotation_degrees := 350 },
    fallbacks := fun _ => none }

/-- Witness for C9: current rotation 350 plus delta 30 stores 20, not
380. -/
theorem C9_rotation_wraps_witness :
    ((StyleTransferSession.apply_feedback (some rC9) s350 "rotate it" "b.png").2.imageParams "b.png").rotation_degrees = 20 := by
  have h := C9_rotation_wraps rC9 s350 "rotate it" "b.png" 30 (by decide) rfl rfl
  rw [h.1]
  decide

end StyleSwap
